import Mathlib

/-!
Shallow embedding of the CodexMonitor cloud-client synchronization engine
(`src/components/CloudClientApp.tsx`, `src/cloud/cloudTypes.ts`,
`src/cloud/cloudCache.ts`) together with theorems settling the frozen
claims about it.
-/

namespace CodexMonitor

/-- Message author role (`role: user | assistant` on message items). -/
inductive ChatRole where
  | user
  | assistant
deriving DecidableEq, Repr

/-- Canonical conversation item (`ConversationItem` in `src/types.ts`, as
produced by the normalizer and consumed by reconciliation).  Only `message`
items carry a `(role, text)` pair; the remaining variants are never
optimistically inserted and are opaque to de-duplication. -/
inductive ConversationItem where
  | message (id : String) (role : ChatRole) (text : String)
  | reasoning (id : String) (summary : String) (content : String)
  | tool (id : String) (toolType : String) (title : String) (detail : String)
      (status : String) (output : String)
  | review (id : String) (state : String) (text : String)
deriving DecidableEq, Repr

namespace ConversationItem

/-- `item.kind === "message"` test from the TypeScript discriminated union. -/
def isMessage : ConversationItem → Bool
  | .message _ _ _ => true
  | _ => false

end ConversationItem

/-- The string form of a role, as interpolated into signature strings. -/
def roleString : ChatRole → String
  | .user => "user"
  | .assistant => "assistant"

/-- De-duplication signature `` `${item.kind}:${item.role}:${item.text}` ``
computed for message items only (`reconcileLocalItems`, `activeItems`). -/
def messageSig : ConversationItem → Option String
  | .message _ role text => some ("message:" ++ roleString role ++ ":" ++ text)
  | _ => none

/-- `countAssistantMessages` from `CloudClientApp.tsx`: the number of items
with `kind === "message" && role === "assistant"`. -/
def countAssistantMessages (items : List ConversationItem) : Nat :=
  (items.filter fun item =>
    match item with
    | .message _ .assistant _ => true
    | _ => false).length

/-- `CloudSnapshotEnvelope<T>` from `src/cloud/cloudTypes.ts`:
`{ v, ts, runnerId, scopeKey, payload }` (`ts` is a millisecond timestamp
assigned by the writer). -/
structure CloudSnapshotEnvelope (α : Type) where
  v : Int
  ts : Int
  runnerId : String
  scopeKey : String
  payload : α
deriving DecidableEq, Repr

/-- Per-scope acceptance state for the timestamp-guarded scopes: the last
accepted timestamp (the `lastWorkspaceUpdatedAt` / `lastThreadUpdatedAtByKey`
entry, defaulting to `0` via `?? 0`) and the currently accepted payload. -/
structure ScopeSync (α : Type) where
  lastTs : Int
  accepted : Option α
deriving DecidableEq, Repr

/-- Initial per-scope state: no accepted payload, last timestamp `0`. -/
def initScopeSync {α : Type} : ScopeSync α := ⟨0, none⟩

/-- The guarded accept step used for workspace and thread scopes in `tick`:
`if (next.ts <= prevTs) return null` / `if (next.ts > prevTs) { ... }` —
an offered envelope is accepted exactly when its `ts` strictly exceeds the
recorded last-accepted timestamp; otherwise the state is unchanged. -/
def offerScopedSnapshot {α : Type} (st : ScopeSync α)
    (e : CloudSnapshotEnvelope α) : ScopeSync α :=
  if st.lastTs < e.ts then ⟨e.ts, some e.payload⟩ else st

/-- The global-scope accept step in `tick` (`CloudClientApp.tsx` lines
431–448): a successfully parsed global envelope is installed via
`setGlobal(globalSnapshot)` with no timestamp comparison at all. -/
def acceptGlobalSnapshot {α : Type} (_st : Option α)
    (e : CloudSnapshotEnvelope α) : Option α :=
  some e.payload

/-- `reconcileLocalItems` from `CloudClientApp.tsx`: given the overlay items
for a thread key and the items of a newly accepted snapshot, drop every
overlay message item whose `kind:role:text` signature already appears among
the snapshot's message items; non-message overlay items are kept.  (The `if
(filtered.length === local.length) return prev` and empty-map bookkeeping in
the source only avoid a redundant state update.) -/
def reconcileLocalItems (localItems snapshotItems : List ConversationItem) :
    List ConversationItem :=
  if localItems.isEmpty then localItems
  else
    let snapshotSigs := snapshotItems.filterMap messageSig
    localItems.filter fun item =>
      match messageSig item with
      | some sig => !snapshotSigs.contains sig
      | none => true

/-- The overlay-append loop inside `activeItems`: walk the overlay items,
skipping any message whose signature is in the accumulated signature set,
and otherwise appending the item to `merged` (message signatures are added
to the set as they are appended). -/
def appendLocalItems (merged : List ConversationItem) (sigs : List String) :
    List ConversationItem → List ConversationItem
  | [] => merged
  | item :: rest =>
    match messageSig item with
    | some sig =>
      if sigs.contains sig then appendLocalItems merged sigs rest
      else appendLocalItems (merged ++ [item]) (sigs ++ [sig]) rest
    | none => appendLocalItems (merged ++ [item]) sigs rest

/-- The merge performed by the `activeItems` memo: overlay items not yet
reconciled are appended after the snapshot's items, with duplicate
suppression seeded from the signatures of the last 12 snapshot items only
(`baseItems.slice(Math.max(0, baseItems.length - 12))`). -/
def mergeActiveItems (baseItems localItems : List ConversationItem) :
    List ConversationItem :=
  if localItems.isEmpty then baseItems
  else
    appendLocalItems baseItems
      ((baseItems.drop (baseItems.length - 12)).filterMap messageSig) localItems

/-- Number of message items in `items` whose signature is `sig`. -/
def countMessagesWithSig (items : List ConversationItem) (sig : String) : Nat :=
  (items.filter fun item => messageSig item == some sig).length

lemma countMessagesWithSig_append (l r : List ConversationItem) (sig : String) :
    countMessagesWithSig (l ++ r) sig
      = countMessagesWithSig l sig + countMessagesWithSig r sig := by
  simp [countMessagesWithSig, List.filter_append]

lemma countMessagesWithSig_singleton_ne (item : ConversationItem) (sig : String)
    (h : messageSig item ≠ some sig) : countMessagesWithSig [item] sig = 0 := by
  have hb : (messageSig item == some sig) = false := by
    simpa using h
  simp [countMessagesWithSig, List.filter, hb]

lemma countSig_appendLocalItems (sig : String) :
    ∀ (localItems merged : List ConversationItem) (sigs : List String),
      sig ∈ sigs →
      countMessagesWithSig (appendLocalItems merged sigs localItems) sig
        = countMessagesWithSig merged sig := by
  intro localItems
  induction localItems with
  | nil => intro merged sigs _; rfl
  | cons item rest ih =>
    intro merged sigs hmem
    cases hsig : messageSig item with
    | none =>
      simp only [appendLocalItems, hsig]
      rw [ih _ _ hmem, countMessagesWithSig_append,
        countMessagesWithSig_singleton_ne item sig (by simp [hsig]), Nat.add_zero]
    | some s =>
      simp only [appendLocalItems, hsig]
      by_cases hc : sigs.contains s = true
      · rw [if_pos hc, ih _ _ hmem]
      · rw [if_neg hc]
        have hne : s ≠ sig := by
          intro hEq
          exact hc (by simpa [hEq] using List.elem_iff.mpr hmem)
        rw [ih _ _ (by simp [hmem]), countMessagesWithSig_append,
          countMessagesWithSig_singleton_ne item sig (by simp [hsig, hne]),
          Nat.add_zero]

/-- C2: an overlay item survives `reconcileLocalItems` exactly when it is
not a message whose signature appears among the snapshot's message items;
rendering appends overlay items after the snapshot items while suppressing
duplicates against the signatures of the last 12 snapshot items, so a
signature already present in that tail gains no extra copies from the
overlay; in particular a snapshot tail already holding
`message{role:user,text:"hi"}` plus an optimistic overlay copy renders
exactly one "hi" message. -/
theorem overlay_reconcile_and_render_dedup
    (localItems snapshotItems baseItems overlayItems : List ConversationItem) :
    (∀ item, item ∈ reconcileLocalItems localItems snapshotItems ↔
        item ∈ localItems ∧ ∀ s, messageSig item = some s →
          s ∉ snapshotItems.filterMap messageSig)
    ∧ (∃ appended, mergeActiveItems baseItems overlayItems
        = baseItems ++ appended)
    ∧ (∀ s, s ∈ (baseItems.drop (baseItems.length - 12)).filterMap messageSig →
        countMessagesWithSig (mergeActiveItems baseItems overlayItems) s
          = countMessagesWithSig baseItems s)
    ∧ countMessagesWithSig
        (mergeActiveItems [ConversationItem.message "m1" ChatRole.user "hi"]
          [ConversationItem.message "local-c-user" ChatRole.user "hi"])
        "message:user:hi" = 1 := by
  refine ⟨?_, ?_, ?_, by decide⟩
  · intro item
    unfold reconcileLocalItems
    by_cases hloc : localItems.isEmpty = true
    · rw [if_pos hloc]
      simp [List.isEmpty_iff.mp hloc]
    · rw [if_neg hloc]
      simp only [List.mem_filter]
      constructor
      · rintro ⟨hmem, hp⟩
        refine ⟨hmem, ?_⟩
        intro s hs hin
        simp only [hs, Bool.not_eq_true'] at hp
        rw [Bool.eq_false_iff] at hp
        exact hp (List.elem_iff.mpr hin)
      · rintro ⟨hmem, hp⟩
        refine ⟨hmem, ?_⟩
        cases hsig : messageSig item with
        | none => simp
        | some s =>
          rw [Bool.not_eq_true', Bool.eq_false_iff]
          intro hcon
          exact hp s hsig (List.elem_iff.mp hcon)
  · unfold mergeActiveItems
    by_cases h : overlayItems.isEmpty = true
    · exact ⟨[], by rw [if_pos h]; simp⟩
    · rw [if_neg h]
      clear h
      generalize (baseItems.drop (baseItems.length - 12)).filterMap messageSig = sigs
      induction overlayItems generalizing baseItems sigs with
      | nil => exact ⟨[], by simp [appendLocalItems]⟩
      | cons item rest ih =>
        cases hsig : messageSig item with
        | none =>
          obtain ⟨tl, htl⟩ := ih (baseItems ++ [item]) sigs
          refine ⟨[item] ++ tl, ?_⟩
          simp only [appendLocalItems, hsig]
          rw [htl, List.append_assoc]
        | some s =>
          by_cases hc : sigs.contains s = true
          · obtain ⟨tl, htl⟩ := ih baseItems sigs
            refine ⟨tl, ?_⟩
            simp only [appendLocalItems, hsig]
            rw [if_pos hc, htl]
          · obtain ⟨tl, htl⟩ := ih (baseItems ++ [item]) (sigs ++ [s])
            refine ⟨[item] ++ tl, ?_⟩
            simp only [appendLocalItems, hsig]
            rw [if_neg hc, htl, List.append_assoc]
  · intro s hs
    unfold mergeActiveItems
    by_cases h : overlayItems.isEmpty = true
    · rw [if_pos h]
    · rw [if_neg h]
      exact countSig_appendLocalItems s overlayItems baseItems _ hs

/-- C2 witness: instantiating the de-duplication theorem on a snapshot whose
tail contains `message{user,"hi"}` and an overlay holding the optimistic
copy of the same message. -/
theorem overlay_reconcile_and_render_dedup_witness :
    countMessagesWithSig
      (mergeActiveItems
        [ConversationItem.message "m0" ChatRole.assistant "yo",
          ConversationItem.message "m1" ChatRole.user "hi"]
        [ConversationItem.message "local-x-user" ChatRole.user "hi",
          ConversationItem.reasoning "r1" "s" "c"])
      "message:user:hi"
    = countMessagesWithSig
        [ConversationItem.message "m0" ChatRole.assistant "yo",
          ConversationItem.message "m1" ChatRole.user "hi"]
        "message:user:hi" :=
  ((overlay_reconcile_and_render_dedup [] []
      [ConversationItem.message "m0" ChatRole.assistant "yo",
        ConversationItem.message "m1" ChatRole.user "hi"]
      [ConversationItem.message "local-x-user" ChatRole.user "hi",
        ConversationItem.reasoning "r1" "s" "c"]).2.2.1
    "message:user:hi" (by decide))

/-- C1 counterexample: the claim quantifies over every scope key including
the global scope, but the global accept path (`setGlobal` in `tick`) has no
timestamp guard.  Offering E1 (ts = 10, payload 1) and then E2 (ts = 5,
payload 2) at the global scope leaves E2's payload accepted, not E1's. -/
theorem global_accept_not_monotone_counterexample :
    acceptGlobalSnapshot
        (acceptGlobalSnapshot (none : Option Nat) ⟨1, 10, "r", "g", 1⟩)
        ⟨1, 5, "r", "g", 2⟩ = some 2
    ∧ (some 2 : Option Nat) ≠ some 1 := by
  refine ⟨rfl, ?_⟩
  decide

/-- C1 (amended): for workspace and thread scopes the engine accepts an
offered envelope exactly when its timestamp strictly exceeds the
last-accepted timestamp (equal or lower timestamps leave the state
unchanged), so after offering E1 (ts = 10) and E2 (ts = 5) in either order
the accepted state equals E1's payload; the global scope, by contrast,
installs any parsed envelope unconditionally. -/
theorem scoped_accept_monotone_global_unconditional {α : Type}
    (st : ScopeSync α) (e : CloudSnapshotEnvelope α) (g : Option α)
    (e1 e2 : CloudSnapshotEnvelope α) (h1 : e1.ts = 10) (h2 : e2.ts = 5) :
    (e.ts ≤ st.lastTs → offerScopedSnapshot st e = st)
    ∧ (st.lastTs < e.ts →
        offerScopedSnapshot st e = ⟨e.ts, some e.payload⟩)
    ∧ (offerScopedSnapshot (offerScopedSnapshot initScopeSync e1) e2).accepted
        = some e1.payload
    ∧ (offerScopedSnapshot (offerScopedSnapshot initScopeSync e2) e1).accepted
        = some e1.payload
    ∧ acceptGlobalSnapshot g e = some e.payload := by
  refine ⟨?_, ?_, ?_, ?_, rfl⟩
  · intro h
    simp only [offerScopedSnapshot, if_neg (by omega : ¬ st.lastTs < e.ts)]
  · intro h
    simp only [offerScopedSnapshot, if_pos h]
  · simp only [offerScopedSnapshot, initScopeSync, h1, h2]
    norm_num
  · simp only [offerScopedSnapshot, initScopeSync, h1, h2]
    norm_num

/-- C1 witness: instantiating the amended monotonicity theorem on concrete
envelopes E1 (ts = 10, payload 7) and E2 (ts = 5, payload 8). -/
theorem scoped_accept_monotone_witness :
    (offerScopedSnapshot
        (offerScopedSnapshot (initScopeSync (α := Nat)) ⟨1, 10, "r", "ws/w", 7⟩)
        ⟨1, 5, "r", "ws/w", 8⟩).accepted = some 7 :=
  (scoped_accept_monotone_global_unconditional (initScopeSync (α := Nat))
      ⟨1, 10, "r", "ws/w", 7⟩ none ⟨1, 10, "r", "ws/w", 7⟩
      ⟨1, 5, "r", "ws/w", 8⟩ rfl rfl).2.2.1

/-- Model of JavaScript `String.prototype.trim`: remove whitespace from
both ends of the string. -/
def jsTrim (s : String) : String :=
  ⟨((s.data.dropWhile Char.isWhitespace).reverse.dropWhile
      Char.isWhitespace).reverse⟩

/-- Phase of a `PendingCommand` (`"submitting" | "waitingResult" |
"waitingReply" | "error"`). -/
inductive CommandPhase where
  | submitting
  | waitingResult
  | waitingReply
  | error
deriving DecidableEq, Repr

/-- `PendingCommand` from `CloudClientApp.tsx`. -/
structure PendingCommand where
  id : String
  createdAt : Int
  phase : CommandPhase
  resultPayloadJson : Option String
  error : Option String
deriving DecidableEq, Repr

/-- `AwaitingReply` from `CloudClientApp.tsx`. -/
structure AwaitingReply where
  commandId : String
  workspaceId : String
  threadId : String
  startedAtMs : Int
  baselineAssistantCount : Nat
deriving DecidableEq, Repr

/-- Shape returned by `cloudkitGetCommandResult`: `{ ok, payloadJson }`. -/
structure CommandResult where
  ok : Bool
  payloadJson : Option String
deriving DecidableEq, Repr

/-- Thread key `` `${workspaceId}::${threadId}` ``. -/
def threadKeyOf (workspaceId threadId : String) : String :=
  workspaceId ++ "::" ++ threadId

/-- The per-thread command-lifecycle state of the client:
`pendingByThreadKey`, `awaitingByThreadKey` and `localItemsByThreadKey`.
The JavaScript objects are maps with unique keys, modelled as functions from
thread keys; an absent overlay entry and an empty overlay list are
observationally identical in the source (`prev[key] ?? []`), so overlay
storage is a total function into lists. -/
structure EngineState where
  pendingByThreadKey : String → Option PendingCommand
  awaitingByThreadKey : String → Option AwaitingReply
  localItemsByThreadKey : String → List ConversationItem

/-- Point update of a keyed map (`{ ...prev, [key]: v }` /
`delete next[key]`). -/
def setMapEntry {α : Type} (m : String → Option α) (k : String)
    (v : Option α) : String → Option α :=
  fun q => if q = k then v else m q

/-- Point update of the overlay-items map. -/
def setItemsEntry (m : String → List ConversationItem) (k : String)
    (v : List ConversationItem) : String → List ConversationItem :=
  fun q => if q = k then v else m q

/-- `applyAwaitingResolutionFromItems` from `CloudClientApp.tsx`: if the
thread key has an awaiting-reply record and the snapshot's assistant-message
count strictly exceeds the recorded baseline, delete both the awaiting
record and the pending command for that key; otherwise leave the state
untouched.  (The telemetry push in the source is a pure side channel.) -/
def applyAwaitingResolutionFromItems (st : EngineState) (key : String)
    (items : List ConversationItem) : EngineState :=
  match st.awaitingByThreadKey key with
  | none => st
  | some awaiting =>
    if awaiting.baselineAssistantCount < countAssistantMessages items then
      { st with
        awaitingByThreadKey := setMapEntry st.awaitingByThreadKey key none,
        pendingByThreadKey := setMapEntry st.pendingByThreadKey key none }
    else st

/-- `now - awaiting.startedAtMs < 15 * 60_000` is the skip condition of the
timeout sweep; a record is expired when that fails. -/
def awaitingExpired (now : Int) (a : AwaitingReply) : Bool :=
  !(now - a.startedAtMs < 15 * 60000)

/-- The awaiting-reply timeout sweep (the `window.setInterval(..., 10_000)`
effect): pointwise denotation of the `Object.entries(...).forEach` loop that
deletes every expired awaiting record together with the pending command at
its key, and touches nothing else. -/
def timeoutSweep (now : Int) (st : EngineState) : EngineState :=
  { st with
    awaitingByThreadKey := fun k =>
      match st.awaitingByThreadKey k with
      | some a => if awaitingExpired now a then none else some a
      | none => none,
    pendingByThreadKey := fun k =>
      match st.awaitingByThreadKey k with
      | some a =>
        if awaitingExpired now a then none else st.pendingByThreadKey k
      | none => st.pendingByThreadKey k }

/-- C4: for a thread key holding an awaiting-reply record, a newly accepted
snapshot whose assistant-message count strictly exceeds the record's
baseline deletes both the awaiting record and the pending command for that
key (the overlay items play no role); when the count does not exceed the
baseline the state is returned unchanged. -/
theorem awaiting_resolution_from_snapshot
    (st : EngineState) (key : String) (items : List ConversationItem)
    (a : AwaitingReply) (ha : st.awaitingByThreadKey key = some a) :
    (a.baselineAssistantCount < countAssistantMessages items →
      (applyAwaitingResolutionFromItems st key items).awaitingByThreadKey key
          = none
      ∧ (applyAwaitingResolutionFromItems st key items).pendingByThreadKey key
          = none)
    ∧ (¬ a.baselineAssistantCount < countAssistantMessages items →
      applyAwaitingResolutionFromItems st key items = st) := by
  constructor
  · intro hlt
    unfold applyAwaitingResolutionFromItems
    rw [ha]
    simp [hlt, setMapEntry]
  · intro hge
    unfold applyAwaitingResolutionFromItems
    rw [ha]
    simp [hge]

/-- C4 witness: a snapshot with two assistant messages against a baseline of
one resolves the awaiting record and pending command at the thread key. -/
theorem awaiting_resolution_from_snapshot_witness :
    (1 < countAssistantMessages
        [ConversationItem.message "a1" ChatRole.assistant "x",
          ConversationItem.message "u1" ChatRole.user "y",
          ConversationItem.message "a2" ChatRole.assistant "z"])
    ∧ (applyAwaitingResolutionFromItems
        { pendingByThreadKey := fun q =>
            if q = "w::t" then
              some ⟨"cmd", 0, CommandPhase.waitingReply, none, none⟩
            else none,
          awaitingByThreadKey := fun q =>
            if q = "w::t" then some ⟨"cmd", "w", "t", 0, 1⟩ else none,
          localItemsByThreadKey := fun _ => [] } "w::t"
        [ConversationItem.message "a1" ChatRole.assistant "x",
          ConversationItem.message "u1" ChatRole.user "y",
          ConversationItem.message "a2" ChatRole.assistant "z"]).pendingByThreadKey
        "w::t" = none :=
  ⟨by decide,
    ((awaiting_resolution_from_snapshot
        { pendingByThreadKey := fun q =>
            if q = "w::t" then
              some ⟨"cmd", 0, CommandPhase.waitingReply, none, none⟩
            else none,
          awaitingByThreadKey := fun q =>
            if q = "w::t" then some ⟨"cmd", "w", "t", 0, 1⟩ else none,
          localItemsByThreadKey := fun _ => [] } "w::t"
        [ConversationItem.message "a1" ChatRole.assistant "x",
          ConversationItem.message "u1" ChatRole.user "y",
          ConversationItem.message "a2" ChatRole.assistant "z"]
        ⟨"cmd", "w", "t", 0, 1⟩ (by decide)).1 (by decide)).2⟩

/-- C6: the timeout sweep deletes every awaiting-reply record whose
`startedAtMs` lies at least 15 minutes in the past together with the
pending command at its thread key, and leaves younger records (and their
pending commands) unchanged. -/
theorem awaiting_timeout_sweep
    (now : Int) (st : EngineState) (key : String) (a : AwaitingReply)
    (ha : st.awaitingByThreadKey key = some a) :
    (15 * 60000 ≤ now - a.startedAtMs →
      (timeoutSweep now st).awaitingByThreadKey key = none
      ∧ (timeoutSweep now st).pendingByThreadKey key = none)
    ∧ (now - a.startedAtMs < 15 * 60000 →
      (timeoutSweep now st).awaitingByThreadKey key = some a
      ∧ (timeoutSweep now st).pendingByThreadKey key
          = st.pendingByThreadKey key) := by
  constructor
  · intro hold
    have hexp : awaitingExpired now a = true := by
      simp [awaitingExpired]
      omega
    constructor
    · simp only [timeoutSweep]
      rw [ha]
      simp [hexp]
    · simp only [timeoutSweep]
      rw [ha]
      simp [hexp]
  · intro hyoung
    have hexp : awaitingExpired now a = false := by
      simp [awaitingExpired]
      omega
    constructor
    · simp only [timeoutSweep]
      rw [ha]
      simp [hexp]
    · simp only [timeoutSweep]
      rw [ha]
      simp [hexp]

/-- C6 witness: a record started at time 0 is swept at `now = 900000`
(15 minutes later) together with its pending command. -/
theorem awaiting_timeout_sweep_witness :
    (timeoutSweep 900000
        { pendingByThreadKey := fun q =>
            if q = "w::t" then
              some ⟨"cmd", 0, CommandPhase.waitingReply, none, none⟩
            else none,
          awaitingByThreadKey := fun q =>
            if q = "w::t" then some ⟨"cmd", "w", "t", 0, 0⟩ else none,
          localItemsByThreadKey := fun _ => [] }).awaitingByThreadKey "w::t"
      = none :=
  ((awaiting_timeout_sweep 900000
      { pendingByThreadKey := fun q =>
          if q = "w::t" then
            some ⟨"cmd", 0, CommandPhase.waitingReply, none, none⟩
          else none,
        awaitingByThreadKey := fun q =>
          if q = "w::t" then some ⟨"cmd", "w", "t", 0, 0⟩ else none,
        localItemsByThreadKey := fun _ => [] } "w::t"
      ⟨"cmd", "w", "t", 0, 0⟩ (by decide)).1 (by decide)).1

/-- One step of the command-result poll loop (the `setInterval(..., 1500)`
effect) for a single thread key whose entry was selected by the
`phase === "waitingResult"` filter.  `extractAssistantText` is the oracle
for `JSON.parse(result.payloadJson).assistantText`: it returns `some t`
exactly when the parsed payload is an object whose `assistantText` field is
a string `t` (parse failures and non-string fields yield `none`).  On
`ok = false` the pending command turns terminal `error` and the awaiting
record is dropped; on `ok = true` the command moves to `waitingReply`
carrying the result payload, and if the extracted assistant text is
non-blank after trimming, an overlay assistant item is appended and both
the pending command and the awaiting record are deleted in the same step. -/
def pollResultStep (extractAssistantText : String → Option String)
    (st : EngineState) (key : String) (result : Option CommandResult) :
    EngineState :=
  match st.pendingByThreadKey key with
  | none => st
  | some pending =>
    if pending.phase ≠ CommandPhase.waitingResult then st
    else
      match result with
      | none => st
      | some r =>
        if r.ok = false then
          { st with
            pendingByThreadKey := setMapEntry st.pendingByThreadKey key
              (some { pending with
                phase := CommandPhase.error,
                error := some (match r.payloadJson with
                  | some s => if s = "" then "Command failed" else s
                  | none => "Command failed") }),
            awaitingByThreadKey := setMapEntry st.awaitingByThreadKey key none }
        else
          let withReply : EngineState :=
            { st with
              pendingByThreadKey := setMapEntry st.pendingByThreadKey key
                (some { pending with
                  phase := CommandPhase.waitingReply,
                  resultPayloadJson := r.payloadJson }) }
          let assistantText :=
            match r.payloadJson with
            | some s => (extractAssistantText s).getD ""
            | none => ""
          if jsTrim assistantText ≠ "" then
            { withReply with
              localItemsByThreadKey := setItemsEntry
                withReply.localItemsByThreadKey key
                (withReply.localItemsByThreadKey key ++
                  [ConversationItem.message
                    ("local-" ++ pending.id ++ "-assistant")
                    ChatRole.assistant assistantText]),
              awaitingByThreadKey := setMapEntry
                withReply.awaitingByThreadKey key none,
              pendingByThreadKey := setMapEntry
                withReply.pendingByThreadKey key none }
          else withReply

/-- C3 counterexample: the fast path fires on `assistantText.trim()`, not on
mere non-emptiness.  With an `ok = true` result whose payload carries the
non-empty whitespace string `" "` as `assistantText`, the pending command is
not deleted (it stays in `waitingReply`), the awaiting record survives, and
no overlay assistant item is materialized — contradicting the claim as
stated. -/
theorem poll_result_blank_text_counterexample :
    (" " : String) ≠ ""
    ∧ (pollResultStep (fun q => if q = "payload" then some " " else none)
        { pendingByThreadKey := fun q =>
            if q = "w::t" then
              some ⟨"cmd", 0, CommandPhase.waitingResult, none, none⟩
            else none,
          awaitingByThreadKey := fun q =>
            if q = "w::t" then some ⟨"cmd", "w", "t", 0, 0⟩ else none,
          localItemsByThreadKey := fun _ => [] }
        "w::t" (some ⟨true, some "payload"⟩)).pendingByThreadKey "w::t"
      = some ⟨"cmd", 0, CommandPhase.waitingReply, some "payload", none⟩
    ∧ (pollResultStep (fun q => if q = "payload" then some " " else none)
        { pendingByThreadKey := fun q =>
            if q = "w::t" then
              some ⟨"cmd", 0, CommandPhase.waitingResult, none, none⟩
            else none,
          awaitingByThreadKey := fun q =>
            if q = "w::t" then some ⟨"cmd", "w", "t", 0, 0⟩ else none,
          localItemsByThreadKey := fun _ => [] }
        "w::t" (some ⟨true, some "payload"⟩)).awaitingByThreadKey "w::t"
      = some ⟨"cmd", "w", "t", 0, 0⟩
    ∧ (pollResultStep (fun q => if q = "payload" then some " " else none)
        { pendingByThreadKey := fun q =>
            if q = "w::t" then
              some ⟨"cmd", 0, CommandPhase.waitingResult, none, none⟩
            else none,
          awaitingByThreadKey := fun q =>
            if q = "w::t" then some ⟨"cmd", "w", "t", 0, 0⟩ else none,
          localItemsByThreadKey := fun _ => [] }
        "w::t" (some ⟨true, some "payload"⟩)).localItemsByThreadKey "w::t"
      = [] := by
  refine ⟨by decide, by decide, by decide, by decide⟩

/-- C3 (amended): when the command-result poll finds an `ok = true` result
whose payload JSON carries an `assistantText` string that is non-blank
after trimming, that text is materialized as a local overlay assistant item
for the thread key and both the pending command and the awaiting-reply
record for that key are deleted within the same poll step, with no snapshot
fetch involved. -/
theorem poll_result_ok_fast_path
    (extract : String → Option String) (st : EngineState) (key : String)
    (p : PendingCommand) (r : CommandResult) (s t : String)
    (hp : st.pendingByThreadKey key = some p)
    (hphase : p.phase = CommandPhase.waitingResult)
    (hok : r.ok = true)
    (hpj : r.payloadJson = some s)
    (hex : extract s = some t)
    (ht : jsTrim t ≠ "") :
    (pollResultStep extract st key (some r)).pendingByThreadKey key = none
    ∧ (pollResultStep extract st key (some r)).awaitingByThreadKey key = none
    ∧ (pollResultStep extract st key (some r)).localItemsByThreadKey key
        = st.localItemsByThreadKey key ++
          [ConversationItem.message ("local-" ++ p.id ++ "-assistant")
            ChatRole.assistant t] := by
  unfold pollResultStep
  rw [hp]
  simp only [hphase, hok, hpj, hex]
  simp [setMapEntry, setItemsEntry, ht]

/-- C3 witness: an inline result payload carrying the assistant text
"hello" resolves the pending command, clears the awaiting record and
materializes the overlay assistant item in a single poll step. -/
theorem poll_result_ok_fast_path_witness :
    (pollResultStep (fun q => if q = "payload" then some "hello" else none)
        { pendingByThreadKey := fun q =>
            if q = "w::t" then
              some ⟨"cmd", 0, CommandPhase.waitingResult, none, none⟩
            else none,
          awaitingByThreadKey := fun q =>
            if q = "w::t" then some ⟨"cmd", "w", "t", 0, 0⟩ else none,
          localItemsByThreadKey := fun _ => [] }
        "w::t" (some ⟨true, some "payload"⟩)).localItemsByThreadKey "w::t"
      = [ConversationItem.message "local-cmd-assistant"
          ChatRole.assistant "hello"] :=
  (poll_result_ok_fast_path
      (fun q => if q = "payload" then some "hello" else none)
      { pendingByThreadKey := fun q =>
          if q = "w::t" then
            some ⟨"cmd", 0, CommandPhase.waitingResult, none, none⟩
          else none,
        awaitingByThreadKey := fun q =>
          if q = "w::t" then some ⟨"cmd", "w", "t", 0, 0⟩ else none,
        localItemsByThreadKey := fun _ => [] }
      "w::t" ⟨"cmd", 0, CommandPhase.waitingResult, none, none⟩
      ⟨true, some "payload"⟩ "payload" "hello"
      (by decide) rfl rfl rfl (by decide) (by decide)).2.2

/-- The `lastSendRef` record used by the send debounce. -/
structure LastSend where
  workspaceId : String
  threadId : String
  text : String
  atMs : Int
deriving DecidableEq, Repr

/-- State touched by `handleSend`: the per-thread engine maps plus the
debounce record. -/
structure SendState where
  engine : EngineState
  lastSend : Option LastSend

/-- `handleSend` from `CloudClientApp.tsx`, for a fixed active workspace and
thread.  Parameters model the ambient context of one invocation: `dispatch`
is the outcome of `cloudkitSubmitCommand` (`Except.error m` = the dispatch
threw with message `m`), `now` stands for `Date.now()`, `commandId` for the
generated UUID and `activeItems` for the rendered items from which the
baseline assistant count is taken.  Returns the new state and whether a
command was dispatched to the transport.  Guard order follows the source:
`canSend`, the single-flight check against a live (non-error) pending
command, the empty-text check, then the 1.5 s same-text debounce; a send
that passes the guards records the debounce entry, installs the
`submitting` pending command, the awaiting-reply record and the optimistic
user overlay item, and finally moves the command to `waitingResult` on
dispatch success or to terminal `error` (clearing the awaiting record but
keeping the overlay item) on dispatch failure. -/
def handleSend (dispatch : Except String Unit) (now : Int) (commandId : String)
    (canSend : Bool) (workspaceId threadId : String)
    (activeItems : List ConversationItem) (text : String) (st : SendState) :
    SendState × Bool :=
  if canSend = false then (st, false)
  else
    let key := threadKeyOf workspaceId threadId
    let blocked : Bool :=
      match st.engine.pendingByThreadKey key with
      | some p => p.phase != CommandPhase.error
      | none => false
    if blocked then (st, false)
    else
      let trimmed := jsTrim text
      if trimmed = "" then (st, false)
      else
        let debounced : Bool :=
          match st.lastSend with
          | some l =>
            l.workspaceId == workspaceId && l.threadId == threadId &&
              l.text == trimmed && decide (now - l.atMs < 1500)
          | none => false
        if debounced then (st, false)
        else
          let baselineAssistantCount := countAssistantMessages activeItems
          let engine1 : EngineState :=
            { pendingByThreadKey := setMapEntry st.engine.pendingByThreadKey
                key (some ⟨commandId, now, CommandPhase.submitting, none, none⟩),
              awaitingByThreadKey := setMapEntry st.engine.awaitingByThreadKey
                key (some ⟨commandId, workspaceId, threadId, now,
                  baselineAssistantCount⟩),
              localItemsByThreadKey := setItemsEntry
                st.engine.localItemsByThreadKey key
                (st.engine.localItemsByThreadKey key ++
                  [ConversationItem.message ("local-" ++ commandId ++ "-user")
                    ChatRole.user trimmed]) }
          let nextLastSend := some (⟨workspaceId, threadId, trimmed, now⟩ :
            LastSend)
          match dispatch with
          | Except.ok _ =>
            let engineOk : EngineState := { engine1 with
              pendingByThreadKey := setMapEntry engine1.pendingByThreadKey key
                (some ⟨commandId, now, CommandPhase.waitingResult, none,
                  none⟩) }
            (⟨engineOk, nextLastSend⟩, true)
          | Except.error msg =>
            let engineErr : EngineState := { engine1 with
              pendingByThreadKey := setMapEntry engine1.pendingByThreadKey key
                (some ⟨commandId, now, CommandPhase.error, none, some msg⟩),
              awaitingByThreadKey := setMapEntry engine1.awaitingByThreadKey
                key none }
            (⟨engineErr, nextLastSend⟩, true)

/-- C5: while the thread key has a pending command whose phase is not
`error`, `handleSend` for that key dispatches nothing and returns the state
unchanged; likewise, a send whose trimmed text equals the previous send's
text for the same workspace and thread less than 1.5 seconds earlier is a
no-op. -/
theorem send_single_flight_and_debounce
    (dispatch : Except String Unit) (now : Int) (commandId : String)
    (workspaceId threadId : String) (activeItems : List ConversationItem)
    (text : String) (st : SendState) :
    (∀ p, st.engine.pendingByThreadKey (threadKeyOf workspaceId threadId)
        = some p → p.phase ≠ CommandPhase.error →
      handleSend dispatch now commandId true workspaceId threadId activeItems
        text st = (st, false))
    ∧ (∀ l, st.lastSend = some l → l.workspaceId = workspaceId →
        l.threadId = threadId → l.text = jsTrim text → now - l.atMs < 1500 →
      handleSend dispatch now commandId true workspaceId threadId activeItems
        text st = (st, false)) := by
  constructor
  · intro p hp hphase
    simp only [handleSend, hp]
    simp [hphase]
  · intro l hl hws hth htext hat
    have hdeb : (l.workspaceId == workspaceId && l.threadId == threadId &&
        l.text == jsTrim text && decide (now - l.atMs < 1500)) = true := by
      simp [hws, hth, htext, hat]
    simp only [handleSend, hl]
    by_cases hb : (match st.engine.pendingByThreadKey
        (threadKeyOf workspaceId threadId) with
      | some p => p.phase != CommandPhase.error
      | none => false) = true
    · simp [hb]
    · simp only [hb, Bool.false_eq_true, if_false]
      by_cases htr : jsTrim text = ""
      · simp [htr]
      · simp [htr, hdeb]

/-- C5 witness: with a live `waitingResult` pending command at the thread
key, a second send is a no-op dispatching nothing. -/
theorem send_single_flight_witness :
    handleSend (Except.ok ()) 0 "cmd2" true "w" "t" [] "again"
      { engine :=
          { pendingByThreadKey := fun q =>
              if q = "w::t" then
                some ⟨"cmd1", 0, CommandPhase.waitingResult, none, none⟩
              else none,
            awaitingByThreadKey := fun _ => none,
            localItemsByThreadKey := fun _ => [] },
        lastSend := none }
      = ({ engine :=
            { pendingByThreadKey := fun q =>
                if q = "w::t" then
                  some ⟨"cmd1", 0, CommandPhase.waitingResult, none, none⟩
                else none,
              awaitingByThreadKey := fun _ => none,
              localItemsByThreadKey := fun _ => [] },
           lastSend := none }, false) :=
  (send_single_flight_and_debounce (Except.ok ()) 0 "cmd2" "w" "t" [] "again"
      { engine :=
          { pendingByThreadKey := fun q =>
              if q = "w::t" then
                some ⟨"cmd1", 0, CommandPhase.waitingResult, none, none⟩
              else none,
            awaitingByThreadKey := fun _ => none,
            localItemsByThreadKey := fun _ => [] },
        lastSend := none }).1
    ⟨"cmd1", 0, CommandPhase.waitingResult, none, none⟩ (by decide) (by decide)

/-- C10: when the guards pass but the command dispatch throws, the pending
command for the thread key becomes a terminal `error` record carrying the
thrown message, the awaiting-reply record for the key is deleted, and the
optimistic user overlay item appended by this send remains in the overlay. -/
theorem send_dispatch_failure_keeps_overlay
    (now : Int) (commandId msg : String) (workspaceId threadId : String)
    (activeItems : List ConversationItem) (text : String) (st : SendState)
    (hnb : ∀ p, st.engine.pendingByThreadKey (threadKeyOf workspaceId threadId)
        = some p → p.phase = CommandPhase.error)
    (htext : jsTrim text ≠ "")
    (hdeb : ∀ l, st.lastSend = some l →
        ¬(l.workspaceId = workspaceId ∧ l.threadId = threadId ∧
          l.text = jsTrim text ∧ now - l.atMs < 1500)) :
    ((handleSend (Except.error msg) now commandId true workspaceId threadId
        activeItems text st).1.engine.pendingByThreadKey
        (threadKeyOf workspaceId threadId)
      = some ⟨commandId, now, CommandPhase.error, none, some msg⟩)
    ∧ ((handleSend (Except.error msg) now commandId true workspaceId threadId
        activeItems text st).1.engine.awaitingByThreadKey
        (threadKeyOf workspaceId threadId) = none)
    ∧ ((handleSend (Except.error msg) now commandId true workspaceId threadId
        activeItems text st).1.engine.localItemsByThreadKey
        (threadKeyOf workspaceId threadId)
      = st.engine.localItemsByThreadKey (threadKeyOf workspaceId threadId) ++
          [ConversationItem.message ("local-" ++ commandId ++ "-user")
            ChatRole.user (jsTrim text)])
    ∧ (handleSend (Except.error msg) now commandId true workspaceId threadId
        activeItems text st).2 = true := by
  have hblocked : (match st.engine.pendingByThreadKey
      (threadKeyOf workspaceId threadId) with
    | some p => p.phase != CommandPhase.error
    | none => false) = false := by
    rcases hp : st.engine.pendingByThreadKey (threadKeyOf workspaceId threadId)
      with _ | p
    · rfl
    · simp [bne_eq_false_iff_eq, hnb p hp]
  have hdebounced : (match st.lastSend with
    | some l => l.workspaceId == workspaceId && l.threadId == threadId &&
        l.text == jsTrim text && decide (now - l.atMs < 1500)
    | none => false) = false := by
    rcases hl : st.lastSend with _ | l
    · rfl
    · by_cases h0 : l.workspaceId = workspaceId
      · by_cases h1 : l.threadId = threadId
        · by_cases h2 : l.text = jsTrim text
          · by_cases h3 : now - l.atMs < 1500
            · exact absurd ⟨h0, h1, h2, h3⟩ (hdeb l hl)
            · simp [h3]
          · simp [h2]
        · simp [h1]
      · simp [h0]

  simp only [handleSend, hblocked, hdebounced, htext, Bool.false_eq_true,
    if_false]
  refine ⟨?_, ?_, ?_, rfl⟩
  · simp [setMapEntry]
  · simp [setMapEntry]
  · simp [setItemsEntry]

/-- C10 witness: a first send of "hi" whose dispatch throws "offline" leaves
an `error` pending command, no awaiting record, and the optimistic user
overlay item for the thread key. -/
theorem send_dispatch_failure_keeps_overlay_witness :
    (handleSend (Except.error "offline") 5 "cmd" true "w" "t" [] "hi"
        { engine :=
            { pendingByThreadKey := fun _ => none,
              awaitingByThreadKey := fun _ => none,
              localItemsByThreadKey := fun _ => [] },
          lastSend := none }).1.engine.localItemsByThreadKey "w::t"
      = [ConversationItem.message "local-cmd-user" ChatRole.user "hi"] :=
  ((send_dispatch_failure_keeps_overlay 5 "cmd" "offline" "w" "t" [] "hi"
      { engine :=
          { pendingByThreadKey := fun _ => none,
            awaitingByThreadKey := fun _ => none,
            localItemsByThreadKey := fun _ => [] },
        lastSend := none }
      (by intro p hp; simp at hp)
      (by decide)
      (by intro l hl; simp at hl)).2.2.1)

/-- Minimal model of a parsed JavaScript JSON value, as produced by
`JSON.parse`: `null`, booleans, numbers (integral timestamps are what the
code manipulates), strings, arrays and objects. -/
inductive JsonValue where
  | null
  | bool (b : Bool)
  | num (n : Int)
  | str (s : String)
  | arr (elems : List JsonValue)
  | obj (fields : List (String × JsonValue))

namespace JsonValue

/-- Property access `value.key` on a parsed value: defined on objects,
`undefined` (`none`) elsewhere. -/
def field : JsonValue → String → Option JsonValue
  | .obj fields, key => fields.lookup key
  | _, _ => none

/-- `Boolean(value && typeof value === "object")`: `null`, booleans,
numbers and strings are either falsy or of non-object `typeof`; objects and
arrays pass. -/
def isObjectLike : JsonValue → Bool
  | .obj _ => true
  | .arr _ => true
  | _ => false

end JsonValue

/-- The strict comparison `value.v === 1` (respectively `!== 1` negated) on
an accessed field: only the number `1` passes. -/
def isVersionOne : Option JsonValue → Bool
  | some (JsonValue.num n) => n == 1
  | _ => false

/-- `parseCloudSnapshot` from `src/cloud/cloudTypes.ts`, modelled over the
already-parsed JSON value; `none` stands for malformed JSON on which
`JSON.parse` threw (the `try/catch` maps that to `null`).  The
`!parsed || typeof parsed !== "object"` test rejects exactly the values
with `isObjectLike = false`; then `v !== 1` rejects, and any surviving
value is returned unmodified — no further validation. -/
def parseCloudSnapshot (parsed : Option JsonValue) : Option JsonValue :=
  match parsed with
  | none => none
  | some value =>
    if !value.isObjectLike then none
    else if !isVersionOne (value.field "v") then none
    else some value

/-- C9: the snapshot envelope parser (a total function — it never throws)
returns `null` on malformed JSON, on parsed values that are not objects,
and on objects whose version field `v` is not the number 1; any other
parsed object is returned as the envelope unmodified, with no further
validation of its shape. -/
theorem parse_cloud_snapshot_contract (value : JsonValue) :
    parseCloudSnapshot none = none
    ∧ (value.isObjectLike = false → parseCloudSnapshot (some value) = none)
    ∧ (isVersionOne (value.field "v") = false →
        parseCloudSnapshot (some value) = none)
    ∧ (value.isObjectLike = true → isVersionOne (value.field "v") = true →
        parseCloudSnapshot (some value) = some value) := by
  refine ⟨rfl, ?_, ?_, ?_⟩
  · intro h
    simp [parseCloudSnapshot, h]
  · intro h
    simp [parseCloudSnapshot, h]
  · intro hobj hv
    simp [parseCloudSnapshot, hobj, hv]

/-- C9 witness: an object with `v = 1` and an arbitrary extra field parses
to itself; a non-object and a wrong version yield `null`. -/
theorem parse_cloud_snapshot_contract_witness :
    parseCloudSnapshot
        (some (JsonValue.obj [("v", JsonValue.num 1),
          ("payload", JsonValue.str "anything")]))
      = some (JsonValue.obj [("v", JsonValue.num 1),
          ("payload", JsonValue.str "anything")])
    ∧ parseCloudSnapshot (some (JsonValue.str "hi")) = none
    ∧ parseCloudSnapshot (some (JsonValue.obj [("v", JsonValue.num 2)]))
        = none :=
  ⟨(parse_cloud_snapshot_contract
        (JsonValue.obj [("v", JsonValue.num 1),
          ("payload", JsonValue.str "anything")])).2.2.2 rfl rfl,
    (parse_cloud_snapshot_contract (JsonValue.str "hi")).2.1 rfl,
    (parse_cloud_snapshot_contract
        (JsonValue.obj [("v", JsonValue.num 2)])).2.2.1 rfl⟩

/-- `MAX_THREAD_ITEMS` from `src/cloud/cloudCache.ts`. -/
def MAX_THREAD_ITEMS : Nat := 80

/-- `MAX_TEXT_CHARS` from `src/cloud/cloudCache.ts`. -/
def MAX_TEXT_CHARS : Nat := 2000

/-- `MAX_CACHE_AGE_MS` from `src/cloud/cloudCache.ts` (14 days). -/
def MAX_CACHE_AGE_MS : Int := 1000 * 60 * 60 * 24 * 14

/-- `truncate` from `src/cloud/cloudCache.ts`: empty (falsy) strings map to
`""`, strings within the budget are unchanged, longer strings are cut to
`maxChars` characters with the ellipsis marker appended (JavaScript
`slice(0, maxChars)` is modelled at character granularity). -/
def truncate (value : String) (maxChars : Nat) : String :=
  if value = "" then ""
  else if value.length ≤ maxChars then value
  else ⟨value.data.take maxChars⟩ ++ "…"

/-- The per-item mapping inside `compactThreadSnapshot`: message items get
their text truncated to `MAX_TEXT_CHARS`; every other item is returned
as-is. -/
def compactCacheItem (item : ConversationItem) : ConversationItem :=
  match item with
  | .message id role text =>
    .message id role (truncate text MAX_TEXT_CHARS)
  | other => other

/-- `CloudThreadStatus` from `src/cloud/cloudTypes.ts`. -/
structure CloudThreadStatus where
  isProcessing : Bool
  hasUnread : Bool
  isReviewing : Bool
deriving DecidableEq, Repr

/-- Payload of a `CloudThreadSnapshot`: rendered items and/or the raw
opaque thread record (opaque to the cache, so only its presence is
modelled), plus the optional status.  `items = none` covers both a missing
field and a non-array value (`Array.isArray` guard). -/
structure ThreadPayload where
  workspaceId : String
  threadId : String
  items : Option (List ConversationItem)
  thread : Option Unit
  status : Option CloudThreadStatus
deriving DecidableEq, Repr

/-- Thread-scope snapshot envelope. -/
abbrev CloudThreadSnapshot := CloudSnapshotEnvelope ThreadPayload

/-- `compactThreadSnapshot` from `src/cloud/cloudCache.ts`: when the
payload has a non-empty rendered item list, keep only the last
`MAX_THREAD_ITEMS` items (`slice(-MAX_THREAD_ITEMS)`), truncate message
texts, and drop the raw thread record; otherwise return the snapshot
unchanged. -/
def compactThreadSnapshot (snapshot : CloudThreadSnapshot) :
    CloudThreadSnapshot :=
  match snapshot.payload.items with
  | none => snapshot
  | some items =>
    if items.isEmpty then snapshot
    else
      let trimmedItems :=
        (items.drop (items.length - MAX_THREAD_ITEMS)).map compactCacheItem
      let payload := { snapshot.payload with
        items := some trimmedItems,
        thread := none }
      { snapshot with payload := payload }

/-- C7 counterexample: a thread envelope published with a raw thread record
and no rendered items (the backend-publisher shape) is stored without any
compaction — in particular its raw thread record is not dropped,
contradicting the claim that the record is dropped from the cached copy
whenever present. -/
theorem compact_keeps_thread_without_items_counterexample :
    (compactThreadSnapshot
        ⟨1, 5, "r", "th/w/t", ⟨"w", "t", none, some (), none⟩⟩).payload.thread
      = some ()
    ∧ (compactThreadSnapshot
        ⟨1, 5, "r", "th/w/t", ⟨"w", "t", some [], some (), none⟩⟩).payload.thread
      = some () := ⟨rfl, rfl⟩

/-- C7 (amended): before a thread envelope with a non-empty rendered item
list is stored in the durable cache it is compacted: only the last 80 items
are retained (the retained list is a suffix of the original of length
`min length 80`), message texts longer than 2000 characters are cut to
2000 characters plus an ellipsis marker while shorter texts are unchanged,
non-message items are stored unmodified, and the raw thread record is
dropped; envelopes without rendered items are stored as published. -/
theorem compact_thread_snapshot_spec
    (snapshot : CloudThreadSnapshot) (items : List ConversationItem)
    (hitems : snapshot.payload.items = some items) (hne : items ≠ []) :
    ((compactThreadSnapshot snapshot).payload.thread = none)
    ∧ ((compactThreadSnapshot snapshot).payload.items
        = some ((items.drop (items.length - MAX_THREAD_ITEMS)).map
            compactCacheItem))
    ∧ (∀ m, (compactThreadSnapshot snapshot).payload.items = some m →
        m.length = min items.length MAX_THREAD_ITEMS)
    ∧ (items.drop (items.length - MAX_THREAD_ITEMS) <:+ items)
    ∧ (∀ id role text,
        compactCacheItem (ConversationItem.message id role text)
          = ConversationItem.message id role (truncate text MAX_TEXT_CHARS))
    ∧ (∀ item, item.isMessage = false → compactCacheItem item = item)
    ∧ (∀ text : String, text.length ≤ MAX_TEXT_CHARS →
        truncate text MAX_TEXT_CHARS = text)
    ∧ (∀ text : String, MAX_TEXT_CHARS < text.length →
        truncate text MAX_TEXT_CHARS = ⟨text.data.take MAX_TEXT_CHARS⟩ ++ "…"
        ∧ (truncate text MAX_TEXT_CHARS).length = MAX_TEXT_CHARS + 1) := by
  have hIE : items.isEmpty = false := by
    cases items with
    | nil => exact absurd rfl hne
    | cons a l => rfl
  have hcompact : (compactThreadSnapshot snapshot).payload
      = { snapshot.payload with
          items := some ((items.drop (items.length - MAX_THREAD_ITEMS)).map
            compactCacheItem),
          thread := none } := by
    simp only [compactThreadSnapshot, hitems, hIE, Bool.false_eq_true,
      if_false]
  refine ⟨?_, ?_, ?_, List.drop_suffix _ _, fun id role text => rfl, ?_,
    ?_, ?_⟩
  · rw [hcompact]
  · rw [hcompact]
  · intro m hm
    rw [hcompact] at hm
    simp only [Option.some.injEq] at hm
    subst hm
    simp only [List.length_map, List.length_drop]
    omega
  · intro item hmsg
    cases item with
    | message id role text => simp [ConversationItem.isMessage] at hmsg
    | reasoning id s c => rfl
    | tool id t ti d st o => rfl
    | review id s t => rfl
  · intro text hlen
    by_cases hempty : text = ""
    · subst hempty
      rfl
    · simp only [truncate, if_neg hempty, if_pos hlen]
  · intro text hlen
    have hempty : text ≠ "" := by
      intro hEq
      rw [hEq] at hlen
      simp [String.length] at hlen
    have hnle : ¬ text.length ≤ MAX_TEXT_CHARS := by omega
    constructor
    · simp only [truncate, if_neg hempty, if_neg hnle]
    · simp only [truncate, if_neg hempty, if_neg hnle]
      have hm : MAX_TEXT_CHARS = 2000 := rfl
      have hdata : text.length = text.data.length := rfl
      have hlen2 : 2000 < text.data.length := by
        rw [hm, hdata] at hlen
        exact hlen
      rw [String.length_append]
      have h1 : (String.mk (text.data.take MAX_TEXT_CHARS)).length = 2000 := by
        show (text.data.take MAX_TEXT_CHARS).length = 2000
        rw [List.length_take, hm]
        omega
      have h2 : ("…" : String).length = 1 := rfl
      rw [h1, h2, hm]

/-- C7 witness: a snapshot with one long message, one short message, a tool
item and a raw thread record is compacted to drop the raw record. -/
theorem compact_thread_snapshot_spec_witness :
    (compactThreadSnapshot
        ⟨1, 5, "r", "th/w/t",
          ⟨"w", "t",
            some [ConversationItem.message "m1" ChatRole.user "hello",
              ConversationItem.tool "t1" "commandExecution" "Command" "" ""
                ""],
            some (), none⟩⟩).payload.thread = none :=
  (compact_thread_snapshot_spec
      ⟨1, 5, "r", "th/w/t",
        ⟨"w", "t",
          some [ConversationItem.message "m1" ChatRole.user "hello",
            ConversationItem.tool "t1" "commandExecution" "Command" "" "" ""],
          some (), none⟩⟩
      [ConversationItem.message "m1" ChatRole.user "hello",
        ConversationItem.tool "t1" "commandExecution" "Command" "" "" ""]
      rfl (by decide)).1

/-- The `?? null` passthrough used for `runner` and `global`: an absent or
`null` field yields `null`, any other value passes through unvalidated (the
TypeScript `as` casts perform no checks). -/
def fieldOrNull (value : JsonValue) (key : String) : JsonValue :=
  match value.field key with
  | some v => v
  | none => JsonValue.null

/-- The `isObject(x) ? x : {}` passthrough used for `workspaces` and
`threads`. -/
def fieldObjectOrEmpty (value : JsonValue) (key : String) : JsonValue :=
  match value.field key with
  | some v => if v.isObjectLike then v else JsonValue.obj []
  | none => JsonValue.obj []

/-- The `Array.isArray(x) ? x.filter(k => typeof k === "string") : []`
coercion used for `threadOrder`. -/
def fieldStringArray (value : JsonValue) (key : String) : List String :=
  match value.field key with
  | some (JsonValue.arr elems) =>
    elems.filterMap fun e =>
      match e with
      | JsonValue.str s => some s
      | _ => none
  | _ => []

/-- `CloudCacheV1` as produced by `coerceCache` (the constant `v: 1` field
is omitted).  The unvalidated casts mean the snapshot-bearing fields hold
whatever JSON values were stored. -/
structure CloudCacheV1 where
  updatedAtMs : Int
  runner : JsonValue
  global : JsonValue
  workspaces : JsonValue
  threads : JsonValue
  threadOrder : List String

/-- `coerceCache` from `src/cloud/cloudCache.ts`, over the parsed stored
value and the current time (`nowMs()`): non-objects and blobs whose `v` is
not the number 1 coerce to `null`; `updatedAtMs` defaults to 0 when not a
number; a truthy (non-zero) `updatedAtMs` more than 14 days old rejects the
whole blob; otherwise the cache shape is rebuilt with `?? null` / `{}` /
string-filtered defaults and a zero `updatedAtMs` replaced by the current
time. -/
def coerceCache (value : JsonValue) (now : Int) : Option CloudCacheV1 :=
  if !value.isObjectLike then none
  else if !isVersionOne (value.field "v") then none
  else
    let updatedAtMs : Int :=
      match value.field "updatedAtMs" with
      | some (JsonValue.num n) => n
      | _ => 0
    if updatedAtMs ≠ 0 ∧ now - updatedAtMs > MAX_CACHE_AGE_MS then none
    else
      some
        { updatedAtMs := if updatedAtMs ≠ 0 then updatedAtMs else now,
          runner := fieldOrNull value "runner",
          global := fieldOrNull value "global",
          workspaces := fieldObjectOrEmpty value "workspaces",
          threads := fieldObjectOrEmpty value "threads",
          threadOrder := fieldStringArray value "threadOrder" }

/-- `loadCloudCache` from `src/cloud/cloudCache.ts`, modelled over the
stored blob already parsed: `stored = none` covers the missing storage key,
a raw value on which `JSON.parse` threw (`safeParse` returns `null`), and a
throwing storage read — all of which load as `null`; otherwise the parsed
blob is coerced. -/
def loadCloudCache (stored : Option JsonValue) (now : Int) :
    Option CloudCacheV1 :=
  match stored with
  | none => none
  | some value => coerceCache value now

/-- C8 counterexample: a stored blob with `updatedAtMs = 0` — which is
older than 14 days relative to any current time after January 1970 plus 14
days — is not treated as absent: the `updatedAtMs &&` truthiness guard
skips the staleness check for 0, so the blob loads successfully. -/
theorem load_cache_zero_updated_at_counterexample :
    (1209600001 : Int) - 0 > MAX_CACHE_AGE_MS
    ∧ (loadCloudCache
        (some (JsonValue.obj [("v", JsonValue.num 1),
          ("updatedAtMs", JsonValue.num 0)])) 1209600001).isSome = true := by
  constructor
  · decide
  · rfl

/-- C8 (amended): loading the durable cache returns `null` for every stored
v = 1 object blob whose numeric `updatedAtMs` is non-zero and older than 14
days relative to the current time; a blob whose `updatedAtMs` is within the
maximum age is returned with its contents coerced to the cache shape
(`?? null`, `{}` and string-filter defaults applied); a zero or missing
`updatedAtMs` is treated as fresh and replaced by the current time. -/
theorem load_cache_staleness
    (value : JsonValue) (now t : Int)
    (hobj : value.isObjectLike = true)
    (hv : isVersionOne (value.field "v") = true)
    (hts : value.field "updatedAtMs" = some (JsonValue.num t))
    (ht0 : t ≠ 0) :
    (now - t > MAX_CACHE_AGE_MS → loadCloudCache (some value) now = none)
    ∧ (¬ now - t > MAX_CACHE_AGE_MS →
        loadCloudCache (some value) now
          = some ⟨t, fieldOrNull value "runner", fieldOrNull value "global",
              fieldObjectOrEmpty value "workspaces",
              fieldObjectOrEmpty value "threads",
              fieldStringArray value "threadOrder"⟩) := by
  constructor
  · intro hstale
    simp only [loadCloudCache, coerceCache, hobj, hv, hts]
    simp [ht0, hstale]
  · intro hfresh
    simp only [loadCloudCache, coerceCache, hobj, hv, hts]
    simp [ht0, hfresh]

/-- C8 witness: a stale one-month-old blob loads as `null`, while a fresh
copy of the same blob loads coerced. -/
theorem load_cache_staleness_witness :
    loadCloudCache
        (some (JsonValue.obj [("v", JsonValue.num 1),
          ("updatedAtMs", JsonValue.num 100)])) 2592000000 = none :=
  (load_cache_staleness
      (JsonValue.obj [("v", JsonValue.num 1),
        ("updatedAtMs", JsonValue.num 100)]) 2592000000 100
      rfl rfl rfl (by decide)).1 (by decide)

end CodexMonitor
